import Mathlib

/-!
# Verification of the hospital-backend role/profile and clinical-record routes

Shallow embedding of `src/app/routes/auth.py` and `src/app/routes/medical.py`.
Request bodies are JSON objects, modelled as association lists of `JVal`.
Database state is a record of row lists; each route is a pure function from
a state and a request to a new state plus an HTTP status (and, where the
route produces them, a payload or emitted notifications).

The ORM models (`app/models.py`), auth utilities (`app/utils/auth.py`) and
the notification collaborator are not part of the given sources; they are
modelled from the spec where marked.
-/

namespace Hospital

/-- A JSON scalar value as it appears in a request body or a stored column. -/
inductive JVal where
  | null : JVal
  | str : String → JVal
  | num : Int → JVal
  | bool : Bool → JVal
deriving DecidableEq, Repr

/-- Python truthiness of a JSON value (`if not data.get('email')`). -/
def JVal.truthy : JVal → Bool
  | .null => false
  | .str s => !s.isEmpty
  | .num n => n != 0
  | .bool b => b

/-- A parsed JSON request body: an object with string keys. -/
abbrev ReqData := List (String × JVal)

/-- `data['k']` / `data.get('k')`: `none` when the key is absent. -/
def getKey (d : ReqData) (k : String) : Option JVal :=
  (d.find? (fun p => p.1 == k)).map (fun p => p.2)

/-- `'k' in data`. -/
def hasKey (d : ReqData) (k : String) : Bool :=
  (getKey d k).isSome

/-- `data.get('k')` with Python `None` mapped to JSON null. -/
def getD (d : ReqData) (k : String) : JVal :=
  (getKey d k).getD .null

/-- Modelled from the spec (glossary): the `UserRole` enum of `app/models.py`,
whose members are patient, doctor, generic staff, nurse, lab technician,
pharmacist, ward manager and financial manager. -/
inductive UserRole where
  | PATIENT | DOCTOR | STAFF | NURSE | LAB_TECHNICIAN
  | PHARMACIST | WARD_MANAGER | FINANCIAL_MANAGER
deriving DecidableEq, Repr

/-- Modelled from the spec: the string value of each enum member. -/
def UserRole.value : UserRole → String
  | .PATIENT => "patient"
  | .DOCTOR => "doctor"
  | .STAFF => "staff"
  | .NURSE => "nurse"
  | .LAB_TECHNICIAN => "lab_technician"
  | .PHARMACIST => "pharmacist"
  | .WARD_MANAGER => "ward_manager"
  | .FINANCIAL_MANAGER => "financial_manager"

/-- Modelled from the spec: `UserRole(x)` — enum lookup by value, raising
(`none`) when `x` is not the value of any member. -/
def UserRole.ofJVal : JVal → Option UserRole
  | .str "patient" => some .PATIENT
  | .str "doctor" => some .DOCTOR
  | .str "staff" => some .STAFF
  | .str "nurse" => some .NURSE
  | .str "lab_technician" => some .LAB_TECHNICIAN
  | .str "pharmacist" => some .PHARMACIST
  | .str "ward_manager" => some .WARD_MANAGER
  | .str "financial_manager" => some .FINANCIAL_MANAGER
  | _ => none

/-- Modelled from the spec: password hashing is an external collaborator;
modelled as an injective encoding of the submitted value. -/
def hash_password : JVal → String
  | .null => "h$null"
  | .str s => "h$s" ++ s
  | .num n => "h$n" ++ toString n
  | .bool b => "h$b" ++ toString b

/-- Modelled from the spec: `verify_password(hash, candidate)` — true exactly
when the stored hash is the hash of the candidate. -/
def verify_password (h : String) (p : JVal) : Bool :=
  h == hash_password p

/-- Modelled from the spec: the `User` row of `app/models.py` (base account
fields; §3 data model). -/
structure User where
  id : Nat
  email : JVal
  password_hash : String
  first_name : JVal
  last_name : JVal
  phone : JVal
  address : JVal
  date_of_birth : JVal
  gender : JVal
  role : UserRole
  is_active : Bool
deriving DecidableEq, Repr

/-- Modelled from the spec: the `Patient` profile row (§3 data model). -/
structure Patient where
  id : Nat
  user_id : Nat
  blood_group : JVal
  emergency_contact : JVal
  insurance_info : JVal
deriving DecidableEq, Repr

/-- Modelled from the spec: the `Doctor` profile row (§3 data model). -/
structure Doctor where
  id : Nat
  user_id : Nat
  license_number : JVal
  specialization : JVal
  years_of_experience : JVal
  qualification : JVal
  consultation_fee : JVal
deriving DecidableEq, Repr

/-- Modelled from the spec: the `Staff` profile row (§3 data model). -/
structure Staff where
  id : Nat
  user_id : Nat
  staff_type : String
  department : JVal
deriving DecidableEq, Repr

/-- Modelled from the spec: the `Appointment` entity (out-of-scope collaborator
linking a patient and a doctor, referenced by clinical records). -/
structure Appointment where
  id : Nat
  patient_id : Nat
  doctor_id : Nat
deriving DecidableEq, Repr

/-- The `TestReport` row, fields as constructed in `upload_test_report`. -/
structure TestReport where
  id : Nat
  appointment_id : JVal
  patient_id : JVal
  test_name : JVal
  test_type : JVal
  result : JVal
  normal_range : JVal
  units : JVal
  comments : JVal
  performed_by : Nat
  status : String
  completed_date : Nat
deriving DecidableEq, Repr

/-- The `MedicalRecord` row, fields as constructed in `add_medical_record`. -/
structure MedicalRecord where
  id : Nat
  patient_id : JVal
  record_type : JVal
  description : JVal
  date_recorded : Nat
  recorded_by : Nat
deriving DecidableEq, Repr

/-- A notification emitted through the `create_notification` collaborator. -/
structure Notification where
  title : String
  receiver_id : Nat
  sender_id : Nat
  notification_type : String
deriving DecidableEq, Repr

/-- The persistent store: one list per table, plus a fresh-id counter. -/
structure DB where
  users : List User
  patients : List Patient
  doctors : List Doctor
  staffs : List Staff
  appointments : List Appointment
  test_reports : List TestReport
  medical_records : List MedicalRecord
  next_id : Nat
deriving DecidableEq, Repr

/-- `User.query.get(uid)`. -/
def findUser (db : DB) (uid : Nat) : Option User :=
  db.users.find? (fun u => u.id == uid)

/-- `user.patient` — the Patient row owned by the user, if any. -/
def findPatient (db : DB) (uid : Nat) : Option Patient :=
  db.patients.find? (fun p => p.user_id == uid)

/-- `user.doctor` — the Doctor row owned by the user, if any. -/
def findDoctor (db : DB) (uid : Nat) : Option Doctor :=
  db.doctors.find? (fun d => d.user_id == uid)

/-- `user.staff` — the Staff row owned by the user, if any. -/
def findStaff (db : DB) (uid : Nat) : Option Staff :=
  db.staffs.find? (fun s => s.user_id == uid)

/-- `Appointment.query.get(x)` — primary-key lookup from a JSON value. -/
def findAppointment (db : DB) (v : JVal) : Option Appointment :=
  db.appointments.find? (fun a => JVal.num a.id == v)

/-- The first required field of `fields` missing from `data`, if any
(the validation loop at the top of each POST handler). -/
def firstMissing (data : ReqData) (fields : List String) : Option String :=
  fields.find? (fun f => !hasKey data f)

/-- `POST /register` (`auth.py`, `register`): validate required fields, reject
duplicate email, create the `User` and exactly one role-matching profile row,
all committed atomically; any failure rolls back to the original state.
Returns the new state and the HTTP status. -/
def register (db : DB) (data : ReqData) : DB × Nat :=
  if (firstMissing data ["email", "password", "first_name", "last_name", "role"]).isSome then
    (db, 400)
  else if (db.users.find? (fun u => u.email == getD data "email")).isSome then
    (db, 400)
  else
    match UserRole.ofJVal (getD data "role") with
    | none => (db, 500)
    | some role =>
      let uid := db.next_id
      let user : User :=
        { id := uid
          email := getD data "email"
          password_hash := hash_password (getD data "password")
          first_name := getD data "first_name"
          last_name := getD data "last_name"
          phone := getD data "phone"
          address := getD data "address"
          date_of_birth := getD data "date_of_birth"
          gender := getD data "gender"
          role := role
          is_active := true }
      let db1 := { db with users := db.users ++ [user], next_id := db.next_id + 2 }
      match role with
      | .PATIENT =>
        let patient : Patient :=
          { id := uid + 1
            user_id := uid
            blood_group := getD data "blood_group"
            emergency_contact := getD data "emergency_contact"
            insurance_info := getD data "insurance_info" }
        ({ db1 with patients := db.patients ++ [patient] }, 201)
      | .DOCTOR =>
        let doctor : Doctor :=
          { id := uid + 1
            user_id := uid
            license_number := getD data "license_number"
            specialization := getD data "specialization"
            years_of_experience := getD data "years_of_experience"
            qualification := getD data "qualification"
            consultation_fee := (getKey data "consultation_fee").getD (.num 0) }
        ({ db1 with doctors := db.doctors ++ [doctor] }, 201)
      | r =>
        let staff : Staff :=
          { id := uid + 1
            user_id := uid
            staff_type := r.value
            department := getD data "department" }
        ({ db1 with staffs := db.staffs ++ [staff] }, 201)

/-- `POST /login` (`auth.py`, `login`): falsy email/password → 400; unknown
email or failing password check → 401; inactive account → 403 (checked after
the credential check); otherwise 200. No state change. -/
def login (db : DB) (data : ReqData) : Nat :=
  if data.isEmpty || !(getD data "email").truthy || !(getD data "password").truthy then
    400
  else
    match db.users.find? (fun u => u.email == getD data "email") with
    | none => 401
    | some user =>
      if !verify_password user.password_hash (getD data "password") then 401
      else if !user.is_active then 403
      else 200

/-- The response of `GET /profile`: the status and the role-specific
sub-object attached, if any. -/
structure ProfileResp where
  status : Nat
  patient_info : Option Patient
  doctor_info : Option Doctor
  staff_info : Option Staff
deriving DecidableEq, Repr

/-- `GET /profile` (`auth.py`, `get_profile`): resolve the bearer identity to
a user; 404 if absent; otherwise attach at most one of patient_info /
doctor_info / staff_info following the if/elif chain of the source. -/
def get_profile (db : DB) (user_id : Nat) : ProfileResp :=
  match findUser db user_id with
  | none => { status := 404, patient_info := none, doctor_info := none, staff_info := none }
  | some user =>
    if user.role == .PATIENT && (findPatient db user.id).isSome then
      { status := 200, patient_info := findPatient db user.id,
        doctor_info := none, staff_info := none }
    else if user.role == .DOCTOR && (findDoctor db user.id).isSome then
      { status := 200, patient_info := none,
        doctor_info := findDoctor db user.id, staff_info := none }
    else if (findStaff db user.id).isSome then
      { status := 200, patient_info := none, doctor_info := none,
        staff_info := findStaff db user.id }
    else
      { status := 200, patient_info := none, doctor_info := none, staff_info := none }

/-- `setattr(row, k, data[k])` guarded by `if k in data`. -/
def setIf (data : ReqData) (k : String) (cur : JVal) : JVal :=
  match getKey data k with
  | some v => v
  | none => cur

/-- The base-field update loop of `update_profile` over its whitelist
`['first_name', 'last_name', 'phone', 'address', 'date_of_birth', 'gender']`. -/
def applyUserFields (u : User) (data : ReqData) : User :=
  { u with
    first_name := setIf data "first_name" u.first_name
    last_name := setIf data "last_name" u.last_name
    phone := setIf data "phone" u.phone
    address := setIf data "address" u.address
    date_of_birth := setIf data "date_of_birth" u.date_of_birth
    gender := setIf data "gender" u.gender }

/-- The patient-field update loop of `update_profile` over
`['blood_group', 'emergency_contact', 'insurance_info']`. -/
def applyPatientFields (p : Patient) (data : ReqData) : Patient :=
  { p with
    blood_group := setIf data "blood_group" p.blood_group
    emergency_contact := setIf data "emergency_contact" p.emergency_contact
    insurance_info := setIf data "insurance_info" p.insurance_info }

/-- The doctor-field update loop of `update_profile` over
`['specialization', 'years_of_experience', 'qualification',
'consultation_fee']`; note `license_number` is absent from the whitelist. -/
def applyDoctorFields (d : Doctor) (data : ReqData) : Doctor :=
  { d with
    specialization := setIf data "specialization" d.specialization
    years_of_experience := setIf data "years_of_experience" d.years_of_experience
    qualification := setIf data "qualification" d.qualification
    consultation_fee := setIf data "consultation_fee" d.consultation_fee }

/-- The base-field whitelist `updatable_fields` of `update_profile`
(`auth.py`, line 150). -/
def updatable_fields : List String :=
  ["first_name", "last_name", "phone", "address", "date_of_birth", "gender"]

/-- The patient-field whitelist `patient_fields` of `update_profile`
(`auth.py`, line 157). -/
def patient_fields : List String :=
  ["blood_group", "emergency_contact", "insurance_info"]

/-- The doctor-field whitelist `doctor_fields` of `update_profile`
(`auth.py`, line 163). -/
def doctor_fields : List String :=
  ["specialization", "years_of_experience", "qualification", "consultation_fee"]

/-- All fields `update_profile` can ever apply for a user of a given role:
the base whitelist plus the role-matching profile whitelist. -/
def roleFields : UserRole → List String
  | .PATIENT => updatable_fields ++ patient_fields
  | .DOCTOR => updatable_fields ++ doctor_fields
  | _ => updatable_fields

/-- `PUT /profile` (`auth.py`, `update_profile`): 404 when the identity does
not resolve; otherwise apply the whitelisted base fields to the user row and,
when the role matches and the profile row exists, the whitelisted profile
fields to that row; commit and return 200. -/
def update_profile (db : DB) (user_id : Nat) (data : ReqData) : DB × Nat :=
  match findUser db user_id with
  | none => (db, 404)
  | some user =>
    let db1 := { db with
      users := db.users.map (fun x => if x.id == user.id then applyUserFields x data else x) }
    if user.role == .PATIENT && (findPatient db user.id).isSome then
      ({ db1 with patients := db.patients.map (fun p =>
          if p.user_id == user.id then applyPatientFields p data else p) }, 200)
    else if user.role == .DOCTOR && (findDoctor db user.id).isSome then
      ({ db1 with doctors := db.doctors.map (fun d =>
          if d.user_id == user.id then applyDoctorFields d data else d) }, 200)
    else
      (db1, 200)

/-- `appointment.patient` — the Patient row an appointment references. -/
def patientOfAppointment (db : DB) (a : Appointment) : Option Patient :=
  db.patients.find? (fun p => p.id == a.patient_id)

/-- `appointment.doctor` — the Doctor row an appointment references. -/
def doctorOfAppointment (db : DB) (a : Appointment) : Option Doctor :=
  db.doctors.find? (fun d => d.id == a.doctor_id)

/-- `POST /test-reports` (`medical.py`, `upload_test_report`): guarded by
`require_roles(LAB_TECHNICIAN, DOCTOR)` (modelled from the spec: AuthError,
role not permitted → 403). Validates the four required fields, persists the
report (committed before notification), then, when the appointment id
resolves, emits a notification to the appointment's patient's user and one to
its doctor's user in that order; unresolved foreign keys inside the
notification block raise after the commit (500 with the report kept). -/
def upload_test_report (db : DB) (user : User) (now : Nat) (data : ReqData) :
    DB × List Notification × Nat :=
  if !(user.role == .LAB_TECHNICIAN || user.role == .DOCTOR) then
    (db, [], 403)
  else if (firstMissing data ["appointment_id", "patient_id", "test_name", "test_type"]).isSome then
    (db, [], 400)
  else
    let report : TestReport :=
      { id := db.next_id
        appointment_id := getD data "appointment_id"
        patient_id := getD data "patient_id"
        test_name := getD data "test_name"
        test_type := getD data "test_type"
        result := getD data "result"
        normal_range := getD data "normal_range"
        units := getD data "units"
        comments := getD data "comments"
        performed_by := user.id
        status := "completed"
        completed_date := now }
    let db1 := { db with test_reports := db.test_reports ++ [report], next_id := db.next_id + 1 }
    match findAppointment db1 (getD data "appointment_id") with
    | none => (db1, [], 201)
    | some appt =>
      match (patientOfAppointment db1 appt).bind (fun p => findUser db1 p.user_id) with
      | none => (db1, [], 500)
      | some puser =>
        let n1 : Notification :=
          { title := "Test Report Available", receiver_id := puser.id,
            sender_id := user.id, notification_type := "test_report" }
        match (doctorOfAppointment db1 appt).bind (fun d => findUser db1 d.user_id) with
        | none => (db1, [n1], 500)
        | some duser =>
          let n2 : Notification :=
            { title := "Test Report Available", receiver_id := duser.id,
              sender_id := user.id, notification_type := "test_report" }
          (db1, [n1, n2], 201)

/-- Insertion step of the `order_by(completed_date.desc())` rendering. -/
def insertByDateDesc (r : TestReport) : List TestReport → List TestReport
  | [] => [r]
  | x :: xs =>
    if x.completed_date < r.completed_date then r :: x :: xs
    else x :: insertByDateDesc r xs

/-- `order_by(TestReport.completed_date.desc())`. -/
def sortByDateDesc (l : List TestReport) : List TestReport :=
  l.foldr insertByDateDesc []

/-- `GET /test-reports` (`medical.py`, `get_test_reports`): visibility by
role. PATIENT — own reports via their patient profile id (raising, 500, when
the profile row is missing); DOCTOR — by the patient_id query filter when
truthy, else reports under the doctor's own appointments; LAB_TECHNICIAN —
reports they performed; any other role — all reports. Ordered by
completed_date descending. -/
def get_test_reports (db : DB) (user : User) (patient_id_q : Option String) :
    Option (List TestReport) × Nat :=
  match user.role with
  | .PATIENT =>
    match findPatient db user.id with
    | none => (none, 500)
    | some p =>
      (some (sortByDateDesc (db.test_reports.filter
        (fun r => r.patient_id == JVal.num p.id))), 200)
  | .DOCTOR =>
    let q := patient_id_q.getD ""
    if !q.isEmpty then
      (some (sortByDateDesc (db.test_reports.filter
        (fun r => r.patient_id == JVal.str q))), 200)
    else
      match findDoctor db user.id with
      | none => (none, 500)
      | some d =>
        let appts := (db.appointments.filter (fun a => a.doctor_id == d.id)).map (fun a => a.id)
        (some (sortByDateDesc (db.test_reports.filter
          (fun r => appts.any (fun i => JVal.num i == r.appointment_id)))), 200)
  | .LAB_TECHNICIAN =>
    (some (sortByDateDesc (db.test_reports.filter
      (fun r => r.performed_by == user.id))), 200)
  | _ =>
    (some (sortByDateDesc db.test_reports), 200)

/-- Modelled from the spec: timestamps are abstract instants (`Nat`);
`isoformat` renders one as a string (`datetime.isoformat` of the external
datetime library). The concrete encoding is invisible to the routes and is
chosen so that rendering and parsing invert each other. -/
def isoformat (t : Nat) : String :=
  String.mk (List.replicate t 'T')

/-- Modelled from the spec: `datetime.fromisoformat` — parses a rendered
timestamp back to its instant, and raises (`none`) on any value that is not
a well-formed timestamp string. -/
def fromisoformat : JVal → Option Nat
  | .str s => if s.data.all (fun c => c == 'T') then some s.length else none
  | _ => none

/-- `POST /medical-records` (`medical.py`, `add_medical_record`): guarded by
`require_roles(DOCTOR, NURSE)` (modelled from the spec). Validates the three
required fields, then parses `data.get('date_recorded',
datetime.utcnow().isoformat())`; a parse failure raises into the generic
handler (rollback, 500). On success persists the record and returns 201. -/
def add_medical_record (db : DB) (user : User) (now : Nat) (data : ReqData) :
    DB × Nat :=
  if !(user.role == .DOCTOR || user.role == .NURSE) then
    (db, 403)
  else if (firstMissing data ["patient_id", "record_type", "description"]).isSome then
    (db, 400)
  else
    match fromisoformat ((getKey data "date_recorded").getD (.str (isoformat now))) with
    | none => (db, 500)
    | some t =>
      let record : MedicalRecord :=
        { id := db.next_id
          patient_id := getD data "patient_id"
          record_type := getD data "record_type"
          description := getD data "description"
          date_recorded := t
          recorded_by := user.id }
      ({ db with medical_records := db.medical_records ++ [record],
                 next_id := db.next_id + 1 }, 201)

/-! ## Helper lemmas -/

theorem mem_insertByDateDesc {a r : TestReport} {l : List TestReport} :
    a ∈ insertByDateDesc r l ↔ a = r ∨ a ∈ l := by
  induction l with
  | nil => simp [insertByDateDesc]
  | cons x xs ih =>
    unfold insertByDateDesc
    by_cases h : x.completed_date < r.completed_date
    · simp [h]
    · simp only [h, if_false, List.mem_cons, ih]
      tauto

theorem mem_sortByDateDesc {a : TestReport} {l : List TestReport} :
    a ∈ sortByDateDesc l ↔ a ∈ l := by
  induction l with
  | nil => simp [sortByDateDesc]
  | cons x xs ih =>
    show a ∈ insertByDateDesc x (sortByDateDesc xs) ↔ _
    rw [mem_insertByDateDesc]
    simp [ih]

theorem getKey_eq_none_of_keys {data : ReqData} {k : String}
    (h : ∀ kv ∈ data, kv.1 ≠ k) : getKey data k = none := by
  unfold getKey
  have : data.find? (fun p => p.1 == k) = none := by
    rw [List.find?_eq_none]
    intro x hx
    simpa using h x hx
  rw [this]
  rfl

theorem setIf_eq_of_getKey_none {data : ReqData} {k : String} {v : JVal}
    (h : getKey data k = none) : setIf data k v = v := by
  unfold setIf
  rw [h]

theorem setIf_congr {d1 d2 : ReqData} {k : String} {v : JVal}
    (h : getKey d1 k = getKey d2 k) : setIf d1 k v = setIf d2 k v := by
  unfold setIf
  rw [h]

theorem find?_key_filter (data : ReqData) (p : String → Bool) (k : String)
    (hk : p k = true) :
    (data.filter (fun kv => p kv.1)).find? (fun pr => pr.1 == k)
      = data.find? (fun pr => pr.1 == k) := by
  induction data with
  | nil => rfl
  | cons a l ih =>
    by_cases heq : (a.1 == k) = true
    · have ha : p a.1 = true := by
        have h1 : a.1 = k := by simpa using heq
        rw [h1]
        exact hk
      simp only [List.filter_cons, ha, reduceIte]
      simp only [List.find?_cons, heq]
    · have heq' : (a.1 == k) = false := by
        rw [Bool.not_eq_true] at heq
        exact heq
      by_cases hpa : p a.1 = true
      · simp only [List.filter_cons, hpa, reduceIte]
        simp only [List.find?_cons, heq']
        exact ih
      · have hpa' : p a.1 = false := by
          rw [Bool.not_eq_true] at hpa
          exact hpa
        simp only [List.filter_cons, hpa', Bool.false_eq_true, reduceIte]
        rw [ih]
        simp only [List.find?_cons, heq']

theorem getKey_filter (data : ReqData) (p : String → Bool) (k : String)
    (hk : p k = true) :
    getKey (data.filter (fun kv => p kv.1)) k = getKey data k := by
  unfold getKey
  rw [find?_key_filter data p k hk]

theorem mem_roleFields_of_mem_base {k : String} (hk : k ∈ updatable_fields) :
    ∀ role : UserRole, k ∈ roleFields role := by
  intro role
  cases role <;> simp [roleFields, List.mem_append, hk]

theorem fromisoformat_isoformat (t : Nat) :
    fromisoformat (.str (isoformat t)) = some t := by
  simp only [fromisoformat, isoformat]
  have hall : (List.replicate t 'T').all (fun c => c == 'T') = true := by
    simp [List.all_eq_true, List.mem_replicate]
  simp [String.length, hall]

theorem map_id_of_eq {α : Type} {l : List α} {f : α → α}
    (h : ∀ a ∈ l, f a = a) : l.map f = l := by
  induction l with
  | nil => rfl
  | cons x xs ih =>
    simp only [List.map_cons]
    rw [h x (by simp), ih (fun a ha => h a (by simp [ha]))]

/-! ## Concrete fixtures (used by witnesses and counterexamples) -/

/-- A registered, active patient account. -/
def uPat : User :=
  { id := 1, email := .str "p@x.com", password_hash := hash_password (.str "pw"),
    first_name := .str "Pat", last_name := .str "One", phone := .null,
    address := .null, date_of_birth := .null, gender := .null,
    role := .PATIENT, is_active := true }

/-- A registered, active doctor account. -/
def uDoc : User :=
  { id := 3, email := .str "d@x.com", password_hash := hash_password (.str "pw"),
    first_name := .str "Doc", last_name := .str "Two", phone := .null,
    address := .null, date_of_birth := .null, gender := .null,
    role := .DOCTOR, is_active := true }

/-- A registered, active lab-technician account. -/
def uLab : User :=
  { id := 5, email := .str "l@x.com", password_hash := hash_password (.str "pw"),
    first_name := .str "Lab", last_name := .str "Three", phone := .null,
    address := .null, date_of_birth := .null, gender := .null,
    role := .LAB_TECHNICIAN, is_active := true }

/-- A deactivated patient account with known credentials. -/
def uInactive : User :=
  { id := 7, email := .str "i@x.com", password_hash := hash_password (.str "pw"),
    first_name := .str "Ina", last_name := .str "Four", phone := .null,
    address := .null, date_of_birth := .null, gender := .null,
    role := .PATIENT, is_active := false }

/-- A registered nurse account, owning a Staff row. -/
def uNurse : User :=
  { id := 9, email := .str "n@x.com", password_hash := hash_password (.str "pw"),
    first_name := .str "Nur", last_name := .str "Five", phone := .null,
    address := .null, date_of_birth := .null, gender := .null,
    role := .NURSE, is_active := true }

/-- The patient profile row of `uPat`. -/
def pPat : Patient :=
  { id := 2, user_id := 1, blood_group := .null, emergency_contact := .null,
    insurance_info := .null }

/-- The doctor profile row of `uDoc`. -/
def dDoc : Doctor :=
  { id := 4, user_id := 3, license_number := .str "L-1", specialization := .null,
    years_of_experience := .null, qualification := .null, consultation_fee := .num 0 }

/-- The staff profile row of `uNurse`. -/
def sNurse : Staff :=
  { id := 10, user_id := 9, staff_type := "nurse", department := .null }

/-- An appointment linking `pPat` and `dDoc`. -/
def aApp : Appointment := { id := 20, patient_id := 2, doctor_id := 4 }

/-- A test report belonging to `pPat` under `aApp`. -/
def rOwn : TestReport :=
  { id := 30, appointment_id := .num 20, patient_id := .num 2,
    test_name := .str "CBC", test_type := .str "blood", result := .null,
    normal_range := .null, units := .null, comments := .null,
    performed_by := 5, status := "completed", completed_date := 100 }

/-- A test report belonging to a different patient. -/
def rOther : TestReport :=
  { id := 31, appointment_id := .num 21, patient_id := .num 99,
    test_name := .str "XR", test_type := .str "imaging", result := .null,
    normal_range := .null, units := .null, comments := .null,
    performed_by := 6, status := "completed", completed_date := 90 }

/-- A small populated store exercising every table. -/
def wdb : DB :=
  { users := [uPat, uDoc, uLab, uInactive, uNurse],
    patients := [pPat], doctors := [dDoc], staffs := [sNurse],
    appointments := [aApp], test_reports := [rOwn, rOther],
    medical_records := [], next_id := 40 }

/-- A well-formed registration request for a fresh patient account. -/
def regPatData : ReqData :=
  [("email", .str "q@x.com"), ("password", .str "s"), ("first_name", .str "A"),
   ("last_name", .str "B"), ("role", .str "patient")]

/-! ## Claims -/

/-- C1: For every user whose role is PATIENT, the list returned by
`list_test_reports` contains only reports whose `patient_id` equals that
user's own patient profile id; no report with a different `patient_id` ever
appears in the result. -/
theorem patient_reports_scoped (db : DB) (user : User) (q : Option String)
    (reports : List TestReport) (p : Patient)
    (hrole : user.role = .PATIENT)
    (hp : findPatient db user.id = some p)
    (hres : get_test_reports db user q = (some reports, 200)) :
    ∀ r ∈ reports, r.patient_id = JVal.num p.id := by
  intro r hr
  unfold get_test_reports at hres
  rw [hrole] at hres
  simp only [hp] at hres
  have hrep : reports = sortByDateDesc
      (db.test_reports.filter (fun x => x.patient_id == JVal.num p.id)) := by
    have := congrArg Prod.fst hres
    simpa using this.symm
  subst hrep
  have hmem : r ∈ db.test_reports.filter (fun x => x.patient_id == JVal.num p.id) :=
    mem_sortByDateDesc.mp hr
  have := List.of_mem_filter hmem
  simpa using this

/-- Witness for C1 at the concrete store `wdb`: the patient's listing is
`[rOwn]`, and its element carries the patient's profile id. -/
theorem patient_reports_scoped_witness :
    rOwn.patient_id = JVal.num pPat.id :=
  patient_reports_scoped wdb uPat none [rOwn] pPat rfl rfl rfl rOwn
    (List.mem_singleton.mpr rfl)

/-- C2: `register` is atomic — for every input, either the call succeeds
(201) and the new `User` row together with its matching profile row become
observable together, or it fails and the state is completely unchanged; a
`User` without its profile row is never an observable outcome. -/
theorem register_atomic (db : DB) (data : ReqData) (db' : DB) (status : Nat)
    (hres : register db data = (db', status)) :
    (status = 201 ∧ ∃ u, db'.users = db.users ++ [u] ∧
       ((∃ p, db'.patients = db.patients ++ [p] ∧ p.user_id = u.id ∧ u.role = .PATIENT) ∨
        (∃ d, db'.doctors = db.doctors ++ [d] ∧ d.user_id = u.id ∧ u.role = .DOCTOR) ∨
        (∃ s, db'.staffs = db.staffs ++ [s] ∧ s.user_id = u.id ∧
          s.staff_type = u.role.value)))
    ∨ (status ≠ 201 ∧ db' = db) := by
  unfold register at hres
  split at hres
  · injection hres with h1 h2
    subst h1; subst h2
    right; exact ⟨by decide, rfl⟩
  · split at hres
    · injection hres with h1 h2
      subst h1; subst h2
      right; exact ⟨by decide, rfl⟩
    · split at hres
      · injection hres with h1 h2
        subst h1; subst h2
        right; exact ⟨by decide, rfl⟩
      · split at hres
        · injection hres with h1 h2
          subst h1; subst h2
          left
          exact ⟨rfl, _, rfl, Or.inl ⟨_, rfl, rfl, rfl⟩⟩
        · injection hres with h1 h2
          subst h1; subst h2
          left
          exact ⟨rfl, _, rfl, Or.inr (Or.inl ⟨_, rfl, rfl, rfl⟩)⟩
        · injection hres with h1 h2
          subst h1; subst h2
          left
          exact ⟨rfl, _, rfl, Or.inr (Or.inr ⟨_, rfl, rfl, rfl⟩)⟩

/-- Witness for C2: a successful concrete registration, showing the success
disjunct at an explicit input. -/
theorem register_atomic_witness :
    ((201 : Nat) = 201 ∧ ∃ u, (register wdb regPatData).1.users = wdb.users ++ [u] ∧
       ((∃ p, (register wdb regPatData).1.patients = wdb.patients ++ [p] ∧
          p.user_id = u.id ∧ u.role = .PATIENT) ∨
        (∃ d, (register wdb regPatData).1.doctors = wdb.doctors ++ [d] ∧
          d.user_id = u.id ∧ u.role = .DOCTOR) ∨
        (∃ s, (register wdb regPatData).1.staffs = wdb.staffs ++ [s] ∧
          s.user_id = u.id ∧ s.staff_type = u.role.value)))
    ∨ ((201 : Nat) ≠ 201 ∧ (register wdb regPatData).1 = wdb) :=
  register_atomic wdb regPatData (register wdb regPatData).1 201 (by rfl)

/-- C3: For every successful `register` call, exactly one profile row of the
kind matching the submitted role is created: PATIENT yields exactly one
Patient row and no Doctor/Staff rows, DOCTOR exactly one Doctor row, and any
staff-family role exactly one Staff row with `staff_type` equal to the role
value; no other table gains a row. -/
theorem register_profile_per_role (db : DB) (data : ReqData) (db' : DB)
    (role : UserRole)
    (hrole : UserRole.ofJVal (getD data "role") = some role)
    (hres : register db data = (db', 201)) :
    (role = .PATIENT → (∃ p, db'.patients = db.patients ++ [p]) ∧
      db'.doctors = db.doctors ∧ db'.staffs = db.staffs)
    ∧ (role = .DOCTOR → (∃ d, db'.doctors = db.doctors ++ [d]) ∧
      db'.patients = db.patients ∧ db'.staffs = db.staffs)
    ∧ (role ≠ .PATIENT → role ≠ .DOCTOR →
      (∃ s, db'.staffs = db.staffs ++ [s] ∧ s.staff_type = role.value) ∧
      db'.patients = db.patients ∧ db'.doctors = db.doctors) := by
  unfold register at hres
  split at hres
  · injection hres with h1 h2
    exact absurd h2 (by decide)
  · split at hres
    · injection hres with h1 h2
      exact absurd h2 (by decide)
    · split at hres
      · injection hres with h1 h2
        exact absurd h2 (by decide)
      · rename_i r heq
        rw [hrole] at heq
        injection heq with heq'
        subst heq'
        cases role with
        | PATIENT =>
          injection hres with h1 h2
          subst h1
          exact ⟨fun _ => ⟨⟨_, rfl⟩, rfl, rfl⟩,
            fun h => absurd h (by decide),
            fun h _ => absurd rfl h⟩
        | DOCTOR =>
          injection hres with h1 h2
          subst h1
          exact ⟨fun h => absurd h (by decide),
            fun _ => ⟨⟨_, rfl⟩, rfl, rfl⟩,
            fun _ h => absurd rfl h⟩
        | STAFF =>
          injection hres with h1 h2
          subst h1
          exact ⟨fun h => absurd h (by decide), fun h => absurd h (by decide),
            fun _ _ => ⟨⟨_, rfl, rfl⟩, rfl, rfl⟩⟩
        | NURSE =>
          injection hres with h1 h2
          subst h1
          exact ⟨fun h => absurd h (by decide), fun h => absurd h (by decide),
            fun _ _ => ⟨⟨_, rfl, rfl⟩, rfl, rfl⟩⟩
        | LAB_TECHNICIAN =>
          injection hres with h1 h2
          subst h1
          exact ⟨fun h => absurd h (by decide), fun h => absurd h (by decide),
            fun _ _ => ⟨⟨_, rfl, rfl⟩, rfl, rfl⟩⟩
        | PHARMACIST =>
          injection hres with h1 h2
          subst h1
          exact ⟨fun h => absurd h (by decide), fun h => absurd h (by decide),
            fun _ _ => ⟨⟨_, rfl, rfl⟩, rfl, rfl⟩⟩
        | WARD_MANAGER =>
          injection hres with h1 h2
          subst h1
          exact ⟨fun h => absurd h (by decide), fun h => absurd h (by decide),
            fun _ _ => ⟨⟨_, rfl, rfl⟩, rfl, rfl⟩⟩
        | FINANCIAL_MANAGER =>
          injection hres with h1 h2
          subst h1
          exact ⟨fun h => absurd h (by decide), fun h => absurd h (by decide),
            fun _ _ => ⟨⟨_, rfl, rfl⟩, rfl, rfl⟩⟩

/-- Witness for C3: registering a patient at a concrete store creates exactly
one Patient row and leaves the Doctor and Staff tables unchanged. -/
theorem register_profile_per_role_witness :
    (∃ p, (register wdb regPatData).1.patients = wdb.patients ++ [p]) ∧
    (register wdb regPatData).1.doctors = wdb.doctors ∧
    (register wdb regPatData).1.staffs = wdb.staffs :=
  (register_profile_per_role wdb regPatData (register wdb regPatData).1
    .PATIENT rfl (by rfl)).1 rfl

/-- C4: A `register` call whose email equals that of an already-registered
user fails with status 400 and leaves the persistent state unchanged. -/
theorem register_duplicate_email (db : DB) (data : ReqData) (e : JVal) (u : User)
    (he : getKey data "email" = some e)
    (hu : u ∈ db.users) (heq : u.email = e) :
    register db data = (db, 400) := by
  have hgd : getD data "email" = e := by
    unfold getD
    rw [he]
    rfl
  unfold register
  split
  · rfl
  · split
    · rfl
    · rename_i hdup
      exfalso
      apply hdup
      rw [List.find?_isSome]
      exact ⟨u, hu, by simp [hgd, heq]⟩

/-- Witness for C4: re-registering the existing email `p@x.com` against the
concrete store `wdb` returns 400 and the unchanged store. -/
theorem register_duplicate_email_witness :
    register wdb [("email", .str "p@x.com"), ("password", .str "s"),
      ("first_name", .str "A"), ("last_name", .str "B"),
      ("role", .str "patient")] = (wdb, 400) :=
  register_duplicate_email wdb _ (.str "p@x.com") uPat rfl (by simp [wdb]) rfl

/-- Counterexample to C5 as stated: for the stored account `p@x.com` (active,
password "pw"), logging in with the correct email and the wrong, empty
password returns 400 — not 401 — because the handler's truthiness check on
the submitted password runs before any credential verification. -/
theorem login_wrong_empty_password_counterexample :
    login wdb [("email", .str "p@x.com"), ("password", .str "")] = 400 ∧
    verify_password uPat.password_hash (.str "") = false ∧
    (400 : Nat) ≠ 401 := by
  refine ⟨rfl, rfl, by decide⟩

/-- C5 (amended): for every login call whose submitted email and password are
truthy (present and non-empty), a matching email with a wrong password fails
with 401 regardless of the account's active flag, and a deactivated account
with correct credentials fails with 403; the deactivation check runs only
after credential verification succeeds. (A falsy password or email is
rejected earlier with 400.) -/
theorem login_status_amended (db : DB) (data : ReqData) (u : User)
    (hemail : (getD data "email").truthy = true)
    (hpw : (getD data "password").truthy = true)
    (hfind : db.users.find? (fun x => x.email == getD data "email") = some u) :
    (verify_password u.password_hash (getD data "password") = false →
      login db data = 401)
    ∧ (verify_password u.password_hash (getD data "password") = true →
      u.is_active = false → login db data = 403) := by
  have hne : data.isEmpty = false := by
    cases data with
    | nil => simp [getD, getKey, JVal.truthy] at hemail
    | cons a l => rfl
  constructor
  · intro hv
    unfold login
    simp [hne, hemail, hpw, hfind, hv]
  · intro hv hact
    unfold login
    simp [hne, hemail, hpw, hfind, hv, hact]

/-- Witness for the amended C5: a truthy wrong password on the active account
gives 401, and correct credentials on the deactivated account give 403. -/
theorem login_status_amended_witness :
    login wdb [("email", .str "p@x.com"), ("password", .str "no")] = 401 ∧
    login wdb [("email", .str "i@x.com"), ("password", .str "pw")] = 403 := by
  constructor
  · exact (login_status_amended wdb
      [("email", .str "p@x.com"), ("password", .str "no")] uPat rfl rfl rfl).1 rfl
  · exact (login_status_amended wdb
      [("email", .str "i@x.com"), ("password", .str "pw")] uInactive rfl rfl rfl).2 rfl rfl

/-- C6: For every `upload_test_report` call by an allowed actor with the
required fields present, the report row is persisted and the call returns
201 even when the appointment id resolves to no appointment — in which case
zero notifications are emitted; when the appointment does resolve (and its
patient/doctor foreign keys do), exactly two notifications are emitted, the
first to the appointment's patient's user and the second to the appointment's
doctor's user. -/
theorem upload_report_notification_policy (db db' : DB) (user : User)
    (now : Nat) (data : ReqData) (notifs : List Notification) (status : Nat)
    (hrole : user.role = .LAB_TECHNICIAN ∨ user.role = .DOCTOR)
    (hfields : firstMissing data
      ["appointment_id", "patient_id", "test_name", "test_type"] = none)
    (hres : upload_test_report db user now data = (db', notifs, status)) :
    (∃ rep, db'.test_reports = db.test_reports ++ [rep]) ∧
    (findAppointment db' (getD data "appointment_id") = none →
      status = 201 ∧ notifs = []) ∧
    (∀ appt pat puser doc duser,
      findAppointment db' (getD data "appointment_id") = some appt →
      patientOfAppointment db' appt = some pat →
      findUser db' pat.user_id = some puser →
      doctorOfAppointment db' appt = some doc →
      findUser db' doc.user_id = some duser →
      status = 201 ∧ notifs.map (fun n => n.receiver_id) = [puser.id, duser.id]) := by
  have hguard : (!(user.role == .LAB_TECHNICIAN || user.role == .DOCTOR)) = false := by
    rcases hrole with h | h <;> rw [h] <;> rfl
  unfold upload_test_report at hres
  rw [hguard, hfields] at hres
  simp only [Bool.false_eq_true, if_false, Option.isSome_none, reduceIte] at hres
  split at hres
  · rename_i heqA
    injection hres with h1 h23
    injection h23 with h2 h3
    subst h1; subst h2; subst h3
    refine ⟨⟨_, rfl⟩, fun _ => ⟨rfl, rfl⟩, ?_⟩
    intro appt pat puser doc duser hA _ _ _ _
    rw [heqA] at hA
    cases hA
  · rename_i appt0 heqA
    split at hres
    · rename_i heqB
      injection hres with h1 h23
      injection h23 with h2 h3
      subst h1; subst h2; subst h3
      refine ⟨⟨_, rfl⟩, ?_, ?_⟩
      · intro h
        rw [heqA] at h
        cases h
      · intro appt pat puser doc duser hA hP hPU _ _
        rw [heqA] at hA
        injection hA with hA'
        subst hA'
        rw [hP] at heqB
        simp only [Option.some_bind] at heqB
        rw [hPU] at heqB
        cases heqB
    · rename_i puser0 heqB
      split at hres
      · rename_i heqC
        injection hres with h1 h23
        injection h23 with h2 h3
        subst h1; subst h2; subst h3
        refine ⟨⟨_, rfl⟩, ?_, ?_⟩
        · intro h
          rw [heqA] at h
          cases h
        · intro appt pat puser doc duser hA _ _ hD hDU
          rw [heqA] at hA
          injection hA with hA'
          subst hA'
          rw [hD] at heqC
          simp only [Option.some_bind] at heqC
          rw [hDU] at heqC
          cases heqC
      · rename_i duser0 heqC
        injection hres with h1 h23
        injection h23 with h2 h3
        subst h1; subst h2; subst h3
        refine ⟨⟨_, rfl⟩, ?_, ?_⟩
        · intro h
          rw [heqA] at h
          cases h
        · intro appt pat puser doc duser hA hP hPU hD hDU
          rw [heqA] at hA
          injection hA with hA'
          subst hA'
          rw [hP] at heqB
          simp only [Option.some_bind] at heqB
          rw [hPU] at heqB
          injection heqB with hB'
          subst hB'
          rw [hD] at heqC
          simp only [Option.some_bind] at heqC
          rw [hDU] at heqC
          injection heqC with hC'
          subst hC'
          exact ⟨rfl, rfl⟩

/-- The request body of a concrete test-report upload under `aApp`. -/
def uploadData : ReqData :=
  [("appointment_id", .num 20), ("patient_id", .num 2),
   ("test_name", .str "T"), ("test_type", .str "x")]

/-- Witness for C6: the lab technician uploads under the resolving
appointment `aApp`; the call returns 201 and notifies exactly the patient's
user and the doctor's user, in that order. -/
theorem upload_report_notification_policy_witness :
    (upload_test_report wdb uLab 200 uploadData).2.2 = 201 ∧
    ((upload_test_report wdb uLab 200 uploadData).2.1.map
      (fun n => n.receiver_id)) = [uPat.id, uDoc.id] := by
  have h := upload_report_notification_policy wdb
    (upload_test_report wdb uLab 200 uploadData).1 uLab 200 uploadData
    (upload_test_report wdb uLab 200 uploadData).2.1
    (upload_test_report wdb uLab 200 uploadData).2.2
    (Or.inl rfl) rfl (by rfl)
  exact h.2.2 aApp pPat uPat dDoc uDoc rfl rfl rfl rfl rfl

/-- Counterexample to C7 as stated: a doctor's `add_medical_record` call with
all required fields present and the unparseable `date_recorded` value
"garbage" returns 500 (the parse error is swallowed by the generic exception
handler), not the claimed 400. -/
theorem add_record_unparseable_counterexample :
    (add_medical_record wdb uDoc 100
      [("patient_id", .num 2), ("record_type", .str "exam"),
       ("description", .str "d"), ("date_recorded", .str "garbage")]).2 = 500 ∧
    (500 : Nat) ≠ 400 :=
  ⟨rfl, by decide⟩

/-- C7 (amended): for every `add_medical_record` call by an allowed actor
with required fields present, an absent `date_recorded` defaults to the
current time, while a supplied but unparseable `date_recorded` makes the call
fail with status 500 (via the generic exception handler), not 400, and
persists nothing. -/
theorem add_record_date_amended (db : DB) (user : User) (now : Nat)
    (data : ReqData)
    (hrole : user.role = .DOCTOR ∨ user.role = .NURSE)
    (hfields : firstMissing data ["patient_id", "record_type", "description"] = none) :
    (getKey data "date_recorded" = none →
      ∃ r, add_medical_record db user now data =
        ({ db with medical_records := db.medical_records ++ [r],
                   next_id := db.next_id + 1 }, 201) ∧
        r.date_recorded = now)
    ∧ (∀ v, getKey data "date_recorded" = some v → fromisoformat v = none →
      add_medical_record db user now data = (db, 500)) := by
  have hguard : (!(user.role == .DOCTOR || user.role == .NURSE)) = false := by
    rcases hrole with h | h <;> rw [h] <;> rfl
  constructor
  · intro habs
    unfold add_medical_record
    rw [hguard, hfields]
    simp only [Bool.false_eq_true, if_false, Option.isSome_none, reduceIte]
    rw [habs]
    simp only [Option.getD_none]
    rw [fromisoformat_isoformat]
    exact ⟨_, rfl, rfl⟩
  · intro v hv hparse
    unfold add_medical_record
    rw [hguard, hfields]
    simp only [Bool.false_eq_true, if_false, Option.isSome_none, reduceIte]
    rw [hv]
    simp only [Option.getD_some]
    rw [hparse]

/-- Witness for the amended C7: with no `date_recorded` submitted, the stored
record's `date_recorded` equals the call-time clock value 100. -/
theorem add_record_date_amended_witness :
    ∃ r, add_medical_record wdb uDoc 100
      [("patient_id", .num 2), ("record_type", .str "exam"),
       ("description", .str "d")] =
      ({ wdb with medical_records := wdb.medical_records ++ [r],
                  next_id := wdb.next_id + 1 }, 201) ∧
      r.date_recorded = 100 :=
  (add_record_date_amended wdb uDoc 100
    [("patient_id", .num 2), ("record_type", .str "exam"),
     ("description", .str "d")] (Or.inl rfl) rfl).1 rfl

/-- C8: For every user resolved by `get_profile` (under the data-model
invariant that a user owning a Staff row owns no Patient or Doctor row), the
response contains `staff_info` whenever a Staff row exists for that user,
regardless of the user's exact role, while `patient_info` and `doctor_info`
are attached only when the role is PATIENT resp. DOCTOR and the matching row
exists. -/
theorem get_profile_role_info (db : DB) (uid : Nat) (u : User)
    (hu : findUser db uid = some u)
    (hinv : (findStaff db u.id).isSome →
      findPatient db u.id = none ∧ findDoctor db u.id = none) :
    ((findStaff db u.id).isSome → (get_profile db uid).staff_info = findStaff db u.id)
    ∧ ((get_profile db uid).patient_info.isSome →
        u.role = .PATIENT ∧ (get_profile db uid).patient_info = findPatient db u.id)
    ∧ ((get_profile db uid).doctor_info.isSome →
        u.role = .DOCTOR ∧ (get_profile db uid).doctor_info = findDoctor db u.id) := by
  by_cases h1 : (u.role == UserRole.PATIENT && (findPatient db u.id).isSome) = true
  · have hgp : get_profile db uid =
        { status := 200, patient_info := findPatient db u.id,
          doctor_info := none, staff_info := none } := by
      unfold get_profile
      rw [hu]
      simp only [h1, if_true]
    have hps := (Bool.and_eq_true _ _).mp h1
    rw [hgp]
    refine ⟨?_, ?_, ?_⟩
    · intro hS
      have hnone := (hinv hS).1
      have := hps.2
      rw [hnone] at this
      cases this
    · intro _
      refine ⟨?_, rfl⟩
      have := hps.1
      simpa using this
    · intro h
      cases h
  · rw [Bool.not_eq_true] at h1
    by_cases h2 : (u.role == UserRole.DOCTOR && (findDoctor db u.id).isSome) = true
    · have hgp : get_profile db uid =
          { status := 200, patient_info := none,
            doctor_info := findDoctor db u.id, staff_info := none } := by
        unfold get_profile
        rw [hu]
        simp only [h1, h2, Bool.false_eq_true, if_false, if_true]
      have hds := (Bool.and_eq_true _ _).mp h2
      rw [hgp]
      refine ⟨?_, ?_, ?_⟩
      · intro hS
        have hnone := (hinv hS).2
        have := hds.2
        rw [hnone] at this
        cases this
      · intro h
        cases h
      · intro _
        refine ⟨?_, rfl⟩
        have := hds.1
        simpa using this
    · rw [Bool.not_eq_true] at h2
      by_cases h3 : (findStaff db u.id).isSome = true
      · have hgp : get_profile db uid =
            { status := 200, patient_info := none,
              doctor_info := none, staff_info := findStaff db u.id } := by
          unfold get_profile
          rw [hu]
          simp only [h1, h2, h3, Bool.false_eq_true, if_false, if_true]
        rw [hgp]
        refine ⟨fun _ => rfl, ?_, ?_⟩
        · intro h
          cases h
        · intro h
          cases h
      · rw [Bool.not_eq_true] at h3
        have hgp : get_profile db uid =
            { status := 200, patient_info := none,
              doctor_info := none, staff_info := none } := by
          unfold get_profile
          rw [hu]
          simp only [h1, h2, h3, Bool.false_eq_true, if_false]
        rw [hgp]
        refine ⟨?_, ?_, ?_⟩
        · intro hS
          rw [h3] at hS
          cases hS
        · intro h
          cases h
        · intro h
          cases h

/-- Witness for C8: the nurse account (a non-PATIENT, non-DOCTOR role) gets
`staff_info` attached because its Staff row exists. -/
theorem get_profile_role_info_witness :
    (get_profile wdb 9).staff_info = findStaff wdb uNurse.id :=
  (get_profile_role_info wdb 9 uNurse rfl (fun _ => ⟨rfl, rfl⟩)).1 rfl

/-- A body none of whose keys lies in any whitelist leaves the state exactly
unchanged and returns 200. -/
theorem update_profile_of_no_whitelisted_keys (db : DB) (uid : Nat)
    (data : ReqData) (u : User)
    (hu : findUser db uid = some u)
    (hkeys : ∀ kv ∈ data, kv.1 ∉
      (["first_name", "last_name", "phone", "address", "date_of_birth", "gender",
        "blood_group", "emergency_contact", "insurance_info",
        "specialization", "years_of_experience", "qualification",
        "consultation_fee"] : List String)) :
    update_profile db uid data = (db, 200) := by
  have hget : ∀ k ∈ (["first_name", "last_name", "phone", "address",
      "date_of_birth", "gender", "blood_group", "emergency_contact",
      "insurance_info", "specialization", "years_of_experience",
      "qualification", "consultation_fee"] : List String),
      getKey data k = none := by
    intro k hk
    exact getKey_eq_none_of_keys (fun kv hkv he => hkeys kv hkv (he ▸ hk))
  have hau : ∀ x : User, applyUserFields x data = x := by
    intro x
    unfold applyUserFields
    rw [setIf_eq_of_getKey_none (hget _ (by simp)),
        setIf_eq_of_getKey_none (hget _ (by simp)),
        setIf_eq_of_getKey_none (hget _ (by simp)),
        setIf_eq_of_getKey_none (hget _ (by simp)),
        setIf_eq_of_getKey_none (hget _ (by simp)),
        setIf_eq_of_getKey_none (hget _ (by simp))]
  have hap : ∀ x : Patient, applyPatientFields x data = x := by
    intro x
    unfold applyPatientFields
    rw [setIf_eq_of_getKey_none (hget _ (by simp)),
        setIf_eq_of_getKey_none (hget _ (by simp)),
        setIf_eq_of_getKey_none (hget _ (by simp))]
  have had : ∀ x : Doctor, applyDoctorFields x data = x := by
    intro x
    unfold applyDoctorFields
    rw [setIf_eq_of_getKey_none (hget _ (by simp)),
        setIf_eq_of_getKey_none (hget _ (by simp)),
        setIf_eq_of_getKey_none (hget _ (by simp)),
        setIf_eq_of_getKey_none (hget _ (by simp))]
  have husers : db.users.map
      (fun x => if x.id == u.id then applyUserFields x data else x) = db.users := by
    apply map_id_of_eq
    intro a _
    by_cases h : (a.id == u.id) = true
    · rw [if_pos h, hau]
    · rw [if_neg h]
  have hpats : db.patients.map
      (fun p => if p.user_id == u.id then applyPatientFields p data else p)
      = db.patients := by
    apply map_id_of_eq
    intro a _
    by_cases h : (a.user_id == u.id) = true
    · rw [if_pos h, hap]
    · rw [if_neg h]
  have hdocs : db.doctors.map
      (fun d => if d.user_id == u.id then applyDoctorFields d data else d)
      = db.doctors := by
    apply map_id_of_eq
    intro a _
    by_cases h : (a.user_id == u.id) = true
    · rw [if_pos h, had]
    · rw [if_neg h]
  unfold update_profile
  simp only [hu]
  split
  · rw [husers, hpats]
  · split
    · rw [husers, hdocs]
    · rw [husers]

/-- `update_profile` reads the body only at the keys of the base whitelist
and of the role-matching profile whitelist: two bodies agreeing on
`roleFields u.role` produce identical results. -/
theorem update_profile_filter_irrelevant (db : DB) (uid : Nat)
    (data dataF : ReqData) (u : User)
    (hu : findUser db uid = some u)
    (hgk : ∀ k ∈ roleFields u.role, getKey dataF k = getKey data k) :
    update_profile db uid dataF = update_profile db uid data := by
  have hbase : ∀ k ∈ updatable_fields, k ∈ roleFields u.role :=
    fun k hk => mem_roleFields_of_mem_base hk u.role
  have hfu : ∀ x : User, applyUserFields x dataF = applyUserFields x data := by
    intro x
    unfold applyUserFields
    rw [setIf_congr (hgk "first_name" (hbase "first_name" (by decide))),
        setIf_congr (hgk "last_name" (hbase "last_name" (by decide))),
        setIf_congr (hgk "phone" (hbase "phone" (by decide))),
        setIf_congr (hgk "address" (hbase "address" (by decide))),
        setIf_congr (hgk "date_of_birth" (hbase "date_of_birth" (by decide))),
        setIf_congr (hgk "gender" (hbase "gender" (by decide)))]
  unfold update_profile
  simp only [hu]
  by_cases hC : (u.role == UserRole.PATIENT && (findPatient db u.id).isSome) = true
  · simp only [if_pos hC]
    have hrole : u.role = .PATIENT := by
      simpa using ((Bool.and_eq_true _ _).mp hC).1
    have hpmem : ∀ k ∈ patient_fields, k ∈ roleFields u.role := by
      rw [hrole]
      intro k hk
      simp [roleFields, List.mem_append, hk]
    have hfp : ∀ x : Patient,
        applyPatientFields x dataF = applyPatientFields x data := by
      intro x
      unfold applyPatientFields
      rw [setIf_congr (hgk "blood_group" (hpmem "blood_group" (by decide))),
          setIf_congr (hgk "emergency_contact"
            (hpmem "emergency_contact" (by decide))),
          setIf_congr (hgk "insurance_info" (hpmem "insurance_info" (by decide)))]
    simp only [hfu, hfp]
  · simp only [if_neg hC]
    by_cases hC2 : (u.role == UserRole.DOCTOR && (findDoctor db u.id).isSome) = true
    · simp only [if_pos hC2]
      have hrole : u.role = .DOCTOR := by
        simpa using ((Bool.and_eq_true _ _).mp hC2).1
      have hdmem : ∀ k ∈ doctor_fields, k ∈ roleFields u.role := by
        rw [hrole]
        intro k hk
        simp [roleFields, List.mem_append, hk]
      have hfd : ∀ x : Doctor,
          applyDoctorFields x dataF = applyDoctorFields x data := by
        intro x
        unfold applyDoctorFields
        rw [setIf_congr (hgk "specialization" (hdmem "specialization" (by decide))),
            setIf_congr (hgk "years_of_experience"
              (hdmem "years_of_experience" (by decide))),
            setIf_congr (hgk "qualification" (hdmem "qualification" (by decide))),
            setIf_congr (hgk "consultation_fee"
              (hdmem "consultation_fee" (by decide)))]
      simp only [hfu, hfd]
    · simp only [if_neg hC2]
      simp only [hfu]

/-- C9: For every `update_profile` call, only fields of the fixed base-field
whitelist and of the role-matching profile-field whitelist are applied: the
result of any body equals the result of that body filtered down to those
whitelists, so every other submitted field — unknown, non-whitelisted or
belonging to another role's whitelist — is silently ignored; every such call
returns 200, and in particular the empty body changes no fields and still
returns 200. -/
theorem update_profile_ignores_unknown_fields (db : DB) (uid : Nat)
    (data : ReqData) (u : User)
    (hu : findUser db uid = some u) :
    update_profile db uid
        (data.filter (fun kv => decide (kv.1 ∈ roleFields u.role)))
      = update_profile db uid data ∧
    (update_profile db uid data).2 = 200 ∧
    update_profile db uid [] = (db, 200) := by
  refine ⟨?_, ?_, ?_⟩
  · exact update_profile_filter_irrelevant db uid data
      (data.filter (fun kv => decide (kv.1 ∈ roleFields u.role))) u hu
      (fun k hk => getKey_filter data
        (fun s => decide (s ∈ roleFields u.role)) k (decide_eq_true hk))
  · unfold update_profile
    simp only [hu]
    split
    · rfl
    · split
      · rfl
      · rfl
  · exact update_profile_of_no_whitelisted_keys db uid [] u hu
      (fun kv h => absurd h (List.not_mem_nil kv))

/-- A mixed PATIENT update body: one whitelisted base field, one cross-role
doctor field and one unknown field. -/
def mixedUpdData : ReqData :=
  [("first_name", .str "Zed"), ("specialization", .str "cardio"),
   ("hacked", .bool true)]

/-- Witness for C9: for the patient account, the mixed body `mixedUpdData`
acts exactly like its whitelist-filtered projection (the cross-role
`specialization` and the unknown `hacked` are ignored), the call returns
200, and the empty body returns 200 with the store unchanged. -/
theorem update_profile_ignores_unknown_fields_witness :
    update_profile wdb 1
        (mixedUpdData.filter (fun kv => decide (kv.1 ∈ roleFields uPat.role)))
      = update_profile wdb 1 mixedUpdData ∧
    (update_profile wdb 1 mixedUpdData).2 = 200 ∧
    update_profile wdb 1 [] = (wdb, 200) :=
  update_profile_ignores_unknown_fields wdb 1 mixedUpdData uPat rfl

/-- C10: For every `update_profile` call and every input, each user row of
the resulting state keeps the email, password hash, role and active flag of
the corresponding original row, and each doctor row keeps its
`license_number` (it is excluded from the doctor whitelist even though the
other doctor fields are updatable). -/
theorem update_profile_preserves_identity_fields (db : DB) (uid : Nat)
    (data : ReqData) :
    (∀ u' ∈ (update_profile db uid data).1.users, ∃ u ∈ db.users,
      u'.id = u.id ∧ u'.email = u.email ∧ u'.password_hash = u.password_hash ∧
      u'.role = u.role ∧ u'.is_active = u.is_active)
    ∧ (∀ d' ∈ (update_profile db uid data).1.doctors, ∃ d ∈ db.doctors,
      d'.id = d.id ∧ d'.user_id = d.user_id ∧
      d'.license_number = d.license_number) := by
  unfold update_profile
  cases hu : findUser db uid with
  | none =>
    simp only
    constructor
    · intro u' h
      exact ⟨u', h, rfl, rfl, rfl, rfl, rfl⟩
    · intro d' h
      exact ⟨d', h, rfl, rfl, rfl⟩
  | some u =>
    simp only
    have husers : ∀ u' ∈ db.users.map
        (fun x => if x.id == u.id then applyUserFields x data else x),
        ∃ uu ∈ db.users, u'.id = uu.id ∧ u'.email = uu.email ∧
          u'.password_hash = uu.password_hash ∧ u'.role = uu.role ∧
          u'.is_active = uu.is_active := by
      intro u' hmem
      rw [List.mem_map] at hmem
      obtain ⟨x, hx, hfx⟩ := hmem
      by_cases hc : (x.id == u.id) = true
      · rw [if_pos hc] at hfx
        subst hfx
        exact ⟨x, hx, rfl, rfl, rfl, rfl, rfl⟩
      · rw [if_neg hc] at hfx
        subst hfx
        exact ⟨x, hx, rfl, rfl, rfl, rfl, rfl⟩
    have hdocs : ∀ d' ∈ db.doctors.map
        (fun x => if x.user_id == u.id then applyDoctorFields x data else x),
        ∃ dd ∈ db.doctors, d'.id = dd.id ∧ d'.user_id = dd.user_id ∧
          d'.license_number = dd.license_number := by
      intro d' hmem
      rw [List.mem_map] at hmem
      obtain ⟨x, hx, hfx⟩ := hmem
      by_cases hc : (x.user_id == u.id) = true
      · rw [if_pos hc] at hfx
        subst hfx
        exact ⟨x, hx, rfl, rfl, rfl⟩
      · rw [if_neg hc] at hfx
        subst hfx
        exact ⟨x, hx, rfl, rfl, rfl⟩
    split
    · exact ⟨husers, fun d' h => ⟨d', h, rfl, rfl, rfl⟩⟩
    · split
      · exact ⟨husers, hdocs⟩
      · exact ⟨husers, fun d' h => ⟨d', h, rfl, rfl, rfl⟩⟩

/-- A profile-update body that attempts to overwrite a doctor's license. -/
def docUpdData : ReqData :=
  [("license_number", .str "HACK"), ("specialization", .str "surgery")]

/-- The doctor row after the update `docUpdData`: the specialization changes,
the license number does not. -/
def dDocUpdated : Doctor := { dDoc with specialization := .str "surgery" }

/-- Witness for C10: after a doctor submits a body containing
`license_number`, the stored doctor row still carries the original license. -/
theorem update_profile_preserves_identity_fields_witness :
    ∃ d ∈ wdb.doctors, dDocUpdated.id = d.id ∧ dDocUpdated.user_id = d.user_id ∧
      dDocUpdated.license_number = d.license_number :=
  (update_profile_preserves_identity_fields wdb 3 docUpdData).2 dDocUpdated
    (List.mem_singleton.mpr rfl)

end Hospital
